import Mathlib

/-!
Verification of the doubao image-editing subsystem
(plugins/doubao/module: image_storage.py, image_processor.py,
api_client.py, image_uploader.py).

The Python code is shallowly embedded: the sqlite `images` table becomes an
association list of rows, the stream parser becomes a fold over an abstract
line type, image matrices become lists of rows of channel values, and the
AWS-SigV4 signing routine is embedded over byte lists with a concrete
SHA-256/HMAC model.  External library behaviour (sqlite, cv2, hashlib,
json) is modelled from its documented semantics; everything written by the
repository itself is translated statement by statement.
-/

/-! ## Lineage store (image_storage.py)

The sqlite table `images` (one row per image id, `id TEXT PRIMARY KEY`) is
modelled as an association list from id to row.  Fields that the Python
code stores as JSON text (`urls`, `operation_params`, `edit_chain`,
`operation_history`) are modelled structurally: `json.dumps`/`json.loads`
round-trip, and the stored text of a list is non-empty (`"[]"`), so the
`json.loads(x) if x else []` guards in `get_image` always take the loads
branch for rows written by `store_image`. -/

/-- One entry of the append-only operation history: the dict
`\x7bid, type, params, timestamp\x7d` built at store time
(image_storage.py lines 59-64). -/
structure HistEntry where
  id : String
  type : Option String
  params : List (String × String)
  timestamp : Nat
deriving DecidableEq, Repr

/-- One row of the `images` table (image_storage.py lines 19-27). -/
structure ImageRow where
  id : String
  urls : List String
  operation_type : Option String
  operation_params : List (String × String)
  parent_id : Option String
  edit_chain : List String
  operation_history : List HistEntry
  created_at : Nat
deriving DecidableEq, Repr

/-- The `image_info` dict passed to `store_image`: `urls`, `type`,
`operation_params`, `parent_id`, `create_time` are read with `.get`,
so each may be absent (`none`). -/
structure ImageInfo where
  urls : List String
  type : Option String
  operation_params : List (String × String)
  parent_id : Option String
  create_time : Option Nat
deriving DecidableEq, Repr

/-- The database state: the rows of the `images` table keyed by id
(`id TEXT PRIMARY KEY` makes ids unique; insertion appends). -/
abbrev Store : Type := List (String × ImageRow)

/-- Error signal of a failed store: sqlite raises `IntegrityError`
(UNIQUE constraint on the primary key) and `store_image` re-raises it. -/
inductive StoreError where
  | duplicateId
deriving DecidableEq, Repr

/-- Python truthiness of an optional string: `if parent_id:` is false for
both `None` and the empty string. -/
def strTruthy : Option String → Bool
  | some s => s ≠ ""
  | none => false

/-- The new record's own history entry (image_storage.py lines 59-64):
`id`, `type`, `params`, and `timestamp = image_info.get("create_time",
int(time.time()))`.  The clock read is passed in as `now`. -/
def ownEntry (imgId : String) (info : ImageInfo) (now : Nat) : HistEntry :=
  { id := imgId, type := info.type, params := info.operation_params,
    timestamp := info.create_time.getD now }

/-- The row that `ImageStorage.store_image` (image_storage.py lines
32-85) computes and INSERTs.  It reads the parent row when `parent_id` is
truthy (lines 47-52, degrading to empty lineage when the lookup finds
nothing), appends `parent_id` to the edit chain when truthy (lines 55-56),
and appends the record's own entry to the operation history (lines 58-64).
The two `int(time.time())` reads are modelled as the single instant
`now`. -/
def storedRow (db : Store) (imgId : String) (info : ImageInfo) (now : Nat) :
    ImageRow :=
  let parent_id := info.parent_id
  let lineage :=
    if strTruthy parent_id then
      match List.lookup (parent_id.getD "") db with
      | some prow => (prow.edit_chain, prow.operation_history)
      | none => ([], [])
    else ([], [])
  let edit_chain :=
    if strTruthy parent_id then lineage.1 ++ [parent_id.getD ""] else lineage.1
  let operation_history := lineage.2 ++ [ownEntry imgId info now]
  { id := imgId
    urls := info.urls
    operation_type := info.type
    operation_params := info.operation_params
    parent_id := parent_id
    edit_chain := edit_chain
    operation_history := operation_history
    created_at := info.create_time.getD now }

/-- The INSERT of `store_image`: the transaction either fails whole (a
duplicate primary key raises before the commit, rolling back — the state
comes back unchanged with the error signal) or commits the complete row
built by `storedRow`. -/
def store_image (db : Store) (imgId : String) (info : ImageInfo) (now : Nat) :
    Store × Option StoreError :=
  if (List.lookup imgId db).isSome then
    (db, some StoreError.duplicateId)
  else
    (db ++ [(imgId, storedRow db imgId info now)], none)

/-- `ImageStorage.get_image` (image_storage.py lines 87-122): SELECT by id,
rebuilding the dict from the row (the JSON round-trip is the identity in
this model); `None` when the id is absent. -/
def get_image (db : Store) (imgId : String) : Option ImageRow :=
  List.lookup imgId db

/-- The `index` argument of `validate_image_index` as Python receives it:
either an `int` or a value of some other type (the `isinstance` check). -/
inductive PyIndex where
  | int (n : Int)
  | notInt
deriving DecidableEq, Repr

/-- Failure message for an unknown id (image_storage.py line 135). -/
def msg_not_found : String := "找不到对应的图片ID"

/-- Failure message for a non-integer index (line 138). -/
def msg_not_int : String := "图片序号必须是数字"

/-- Failure message for an index outside 1..4 (line 141). -/
def msg_out_of_range : String := "图片序号必须是1-4之间的数字"

/-- Failure message when `urls` is shorter than the index (line 145). -/
def msg_too_few : String := "图片序号超出范围"

/-- `ImageStorage.validate_image_index` (image_storage.py lines 124-151):
pure checks in order — id present, index an int, index within 1..4,
`urls` long enough — returning `(False, message)` on the first failure and
`(True, None)` on success. -/
def validate_image_index (db : Store) (imgId : String) (index : PyIndex) :
    Bool × Option String :=
  match get_image db imgId with
  | none => (false, some msg_not_found)
  | some row =>
    match index with
    | PyIndex.notInt => (false, some msg_not_int)
    | PyIndex.int n =>
      if n < 1 ∨ n > 4 then (false, some msg_out_of_range)
      else if row.urls = [] ∨ (row.urls.length : Int) < n then
        (false, some msg_too_few)
      else (true, none)

/-! ## Streaming completion client (api_client.py, `send_request`)

The line-oriented event stream is modelled as a list of abstract lines.
`json.loads` is external; its outcome on each line is part of the line's
abstract value: a line either is empty, lacks the `data:` marker, fails the
outer JSON decode, decodes with a missing/falsy `event_data`, fails the
inner `event_data` decode, or yields a decoded event.  Within a decoded
event, `Option` fields model dict-key presence: `none` is an absent key. -/

/-- One per-image record of the `data` array inside a 2010-type message:
`some url` when the record has an `image_raw` with its `url`. -/
structure ImgRec where
  image_raw : Option String
deriving DecidableEq, Repr

/-- The decoded `content` of a message (a third JSON layer): `data` is the
`data` array when the key is present. -/
structure ContentData where
  data : Option (List ImgRec)
deriving DecidableEq, Repr

/-- The `message` dict of a decoded event: its `content_type` (via `.get`,
so optional) and the decode outcome of its JSON-string `content` field
(`none` when that third-layer decode raises, which the generic handler
turns into `continue`). -/
structure MessageData where
  content_type : Option Int
  content : Option ContentData
deriving DecidableEq, Repr

/-- A decoded `event_data` object.  `conversation_id = some v` models the
key being present with string value `v`; `section_id` and `reply_id` are
read with `.get`, so `none` is an absent key. -/
structure EventData where
  conversation_id : Option String
  section_id : Option String
  reply_id : Option String
  message : Option MessageData
deriving DecidableEq, Repr

/-- One line of the event stream, abstracted by how far the two JSON
decode layers get (api_client.py lines 219-260). -/
inductive StreamLine where
  /-- A falsy (empty) line: `if not line: continue`. -/
  | empty
  /-- A line that does not start with `data:`. -/
  | noMarker
  /-- `json.loads(line[5:])` raises `JSONDecodeError`. -/
  | badJson
  /-- Outer decode succeeded but `event_data` is absent or falsy. -/
  | noEventData
  /-- `json.loads(event_json["event_data"])` raises `JSONDecodeError`. -/
  | badEventJson
  /-- Both decode layers succeeded. -/
  | ok (e : EventData)
deriving DecidableEq, Repr

/-- The parser's running state: accumulated image URLs, the three session
identifiers, and `response_data` (api_client.py lines 213-217). -/
structure SendState where
  image_urls : List String
  conversation_id : Option String
  section_id : Option String
  reply_id : Option String
  response_data : List ImgRec
deriving DecidableEq, Repr

/-- The state at the top of the loop: empty urls, `None` identifiers. -/
def initSendState : SendState :=
  { image_urls := [], conversation_id := none, section_id := none,
    reply_id := none, response_data := [] }

/-- The body of the `for line in response.iter_lines()` loop
(api_client.py lines 219-260).  Lines that stop early (empty, no marker,
either decode failure, missing `event_data`) leave the state unchanged.
On a decoded event: when `conversation_id` is present all three
identifiers are overwritten from this event (lines 238-242); then a
message of `content_type == 2010` whose `content` decodes and has a `data`
key replaces `response_data` and appends every `image_raw` url
(lines 245-253). -/
def processLine (st : SendState) (l : StreamLine) : SendState :=
  match l with
  | StreamLine.ok e =>
    let st1 :=
      if (e.conversation_id).isSome then
        { st with conversation_id := e.conversation_id,
                  section_id := e.section_id,
                  reply_id := e.reply_id }
      else st
    match e.message with
    | some m =>
      if m.content_type = some 2010 then
        match m.content with
        | some c =>
          match c.data with
          | some ds =>
            { st1 with response_data := ds,
                       image_urls := st1.image_urls
                         ++ ds.filterMap (fun r => r.image_raw) }
          | none => st1
        | none => st1
      else st1
    | none => st1
  | _ => st

/-- Fold of the loop body over the whole stream. -/
def processStream (lines : List StreamLine) : SendState :=
  lines.foldl processLine initSendState

/-- The structured success result (api_client.py lines 263-270). -/
structure SendResult where
  urls : List String
  conversation_id : Option String
  section_id : Option String
  reply_id : Option String
  data : List ImgRec
deriving DecidableEq, Repr

/-- The result assembly of `ApiClient.send_request` after the stream loop
(api_client.py lines 262-273): the structured result when at least one
image URL accumulated, otherwise `None` — a failure even without any
transport error. -/
def send_request (lines : List StreamLine) : Option SendResult :=
  let st := processStream lines
  if st.image_urls = [] then none
  else some { urls := st.image_urls, conversation_id := st.conversation_id,
              section_id := st.section_id, reply_id := st.reply_id,
              data := st.response_data }

/-! ## Canvas composer (image_processor.py, `combine_images`)

The function downloads its URLs and skips failures; the model takes the
successfully decoded images (dimensions only — the layout never inspects
pixel content) and returns the canvas dimensions plus the list of paste
operations.  Python floats in the 2-image branch are modelled as exact
rationals, `int(...)` as truncation toward zero, `//` as floor division. -/

/-- A decoded downloaded image, abstracted to its dimensions. -/
structure ImgD where
  w : Nat
  h : Nat
deriving DecidableEq, Repr

/-- One paste onto the canvas: either input image `i` resized to the given
size, or the blank white filler tile (image_processor.py line 162). -/
inductive Paste where
  | pic (i : Nat) (w h : Int)
  | blank (w h : Int)
deriving DecidableEq, Repr

/-- A composed canvas: its dimensions and the pastes at their positions. -/
structure Canvas where
  w : Int
  h : Int
  pastes : List (Int × Int × Paste)
deriving DecidableEq, Repr

/-- Python `int(...)` on a rational: truncation toward zero. -/
def pyInt (q : ℚ) : Int :=
  if q < 0 then ⌈q⌉ else ⌊q⌋

/-- The 2-image branch (image_processor.py lines 113-145).  A zero image
height would raise `ZeroDivisionError` in Python; the model returns the
rational 0 there (no claim touches this branch). -/
def twoLayout (images : List ImgD) : Canvas :=
  let i0 := images.headD { w := 0, h := 0 }
  let base_width : Int := i0.w
  let line_width : Int := 10
  let ratios : List ℚ := images.map (fun im => (im.w : ℚ) / (im.h : ℚ))
  let max_ratio : ℚ := ratios.foldl max (ratios.headD 0)
  let target_height : Int := pyInt (((base_width : ℚ) + 10) / (2 * max_ratio))
  let total_width := base_width
  let target_width : Int := Int.fdiv (total_width - line_width) 2
  let pastes := images.enum.map (fun (p : Nat × ImgD) =>
    let i : Nat := p.1
    let im := p.2
    let img_ratio : ℚ := (im.w : ℚ) / (im.h : ℚ)
    let nw0 := pyInt ((target_height : ℚ) * img_ratio)
    let nw := if nw0 > target_width then target_width else nw0
    let nh := if nw0 > target_width then pyInt ((target_width : ℚ) / img_ratio)
              else target_height
    let x := (i : Int) * (target_width + line_width)
               + Int.fdiv (target_width - nw) 2
    let y := Int.fdiv (target_height - nh) 2
    (x, y, Paste.pic i nw nh))
  { w := total_width, h := target_height, pastes := pastes }

/-- `ImageProcessor.combine_images` (image_processor.py lines 72-191) on
the list of successfully downloaded images: `None` when nothing
downloaded; one image returned unchanged; two images via `twoLayout`;
three or more via the 3:1 layout (lines 147-175): the canvas is
`base_width + int(base_width/3) + 10` wide and `base_height` tall, image 1
pasted at full resolution at the origin, and three right-column slots at
`x = base_width + 10`, `y = (i-1)*(small_height+10)`, each holding input
image `i` resized to `(int(base_width/3), int(base_height/3))` when it
exists and the white blank tile of that same size otherwise. -/
def combine_images (images : List ImgD) : Option Canvas :=
  match images with
  | [] => none
  | [i0] => some { w := i0.w, h := i0.h, pastes := [(0, 0, Paste.pic 0 i0.w i0.h)] }
  | i0 :: _ =>
    if images.length = 2 then some (twoLayout images)
    else
      let small_width : Int := (i0.w / 3 : Nat)
      let small_height : Int := (i0.h / 3 : Nat)
      let line_width : Int := 10
      let total_width := (i0.w : Int) + small_width + line_width
      let total_height := (i0.h : Int)
      let slots := (List.range 3).map (fun (k : Nat) =>
        let x := (i0.w : Int) + line_width
        let y := (k : Int) * (small_height + line_width)
        if k + 1 < images.length then
          (x, y, Paste.pic (k + 1) small_width small_height)
        else (x, y, Paste.blank small_width small_height))
      some { w := total_width, h := total_height,
             pastes := (0, 0, Paste.pic 0 i0.w i0.h) :: slots }

/-! ## Mask generator (image_processor.py)

Images are matrices of BGR pixels (`cv2.imdecode(..., IMREAD_COLOR)` always
yields 3 channels), masks are single-channel matrices of values in 0..255.
The OpenCV primitives are modelled from their documented semantics:
`absdiff` is per-channel absolute difference, `BGR2GRAY` the fixed-point
luma formula, `threshold(THRESH_BINARY)` maps values above the threshold
to 255, `dilate`/`erode` take the max/min over the in-bounds 3x3
neighbourhood (the default constant border is absorbing for both), and
`findContours(RETR_EXTERNAL)` yields the 8-connected components of the
foreground, with `contourArea` the component's pixel count and a filled
`drawContours` painting exactly the component. -/

/-- A pixel in BGR channel order, each channel in 0..255. -/
abbrev Pix : Type := Nat × Nat × Nat

/-- A 3-channel image matrix (list of rows). -/
abbrev Mat3 : Type := List (List Pix)

/-- A single-channel matrix (list of rows). -/
abbrev Mat1 : Type := List (List Nat)

/-- Raw image bytes, abstracted by whether `cv2.imdecode` can decode them
(it returns `None` on undecodable input rather than raising). -/
inductive ImageBytes where
  | valid (m : Mat3)
  | invalid
deriving DecidableEq, Repr

/-- Model of `cv2.imdecode` via `ImageProcessor._bytes_to_cv`
(image_processor.py lines 23-26). -/
def imdecode : ImageBytes → Option Mat3
  | ImageBytes.valid m => some m
  | ImageBytes.invalid => none

/-- `(height, width)` of a 3-channel matrix — `shape[:2]`. -/
def dims3 (m : Mat3) : Nat × Nat := (m.length, (m.headD []).length)

/-- `(height, width)` of a single-channel matrix. -/
def dims1 (m : Mat1) : Nat × Nat := (m.length, (m.headD []).length)

/-- Build an `h × w` single-channel matrix from an index function. -/
def mkMat1 (h w : Nat) (f : Nat → Nat → Nat) : Mat1 :=
  (List.range h).map (fun (r : Nat) => (List.range w).map (fun (c : Nat) => f r c))

/-- Bounds-checked read of a single-channel matrix. -/
def get1 (m : Mat1) (r c : Nat) : Option Nat :=
  (m.get? r).bind (fun row => row.get? c)

/-- Model of `cv2.absdiff`: per-channel absolute difference. -/
def absdiffM (a b : Mat3) : Mat3 :=
  List.zipWith (fun ra rb => List.zipWith (fun (pa pb : Pix) =>
    ((max pa.1 pb.1 - min pa.1 pb.1,
      max pa.2.1 pb.2.1 - min pa.2.1 pb.2.1,
      max pa.2.2 pb.2.2 - min pa.2.2 pb.2.2) : Pix)) ra rb) a b

/-- Model of `cv2.cvtColor(COLOR_BGR2GRAY)`: OpenCV fixed-point luma,
`(1868*B + 9617*G + 4899*R + 8192) >> 14`. -/
def bgr2gray (m : Mat3) : Mat1 :=
  m.map (List.map (fun (p : Pix) =>
    (1868 * p.1 + 9617 * p.2.1 + 4899 * p.2.2 + 8192) >>> 14))

/-- Model of `cv2.threshold(..., t, 255, THRESH_BINARY)`: values strictly
above `t` become 255, the rest 0. -/
def thresholdBin (m : Mat1) (t : Nat) : Mat1 :=
  m.map (List.map (fun v => if t < v then 255 else 0))

/-- Values of the in-bounds 3x3 neighbourhood around `(r, c)` (the
`np.ones((3,3))` kernel anchored at its centre). -/
def nbhdVals (m : Mat1) (r c : Nat) : List Nat :=
  (List.range 3).flatMap (fun (dr : Nat) =>
    (List.range 3).filterMap (fun (dc : Nat) =>
      if r + dr = 0 ∨ c + dc = 0 then none
      else get1 m (r + dr - 1) (c + dc - 1)))

/-- Model of `cv2.dilate` with the 3x3 ones kernel: neighbourhood max. -/
def dilate (m : Mat1) : Mat1 :=
  let d := dims1 m
  mkMat1 d.1 d.2 (fun r c => (nbhdVals m r c).foldl max 0)

/-- Model of `cv2.erode` with the 3x3 ones kernel: neighbourhood min. -/
def erode (m : Mat1) : Mat1 :=
  let d := dims1 m
  mkMat1 d.1 d.2 (fun r c => (nbhdVals m r c).foldl min 255)

/-- `n`-fold application of a matrix operation. -/
def iterOp (f : Mat1 → Mat1) : Nat → Mat1 → Mat1
  | 0, m => m
  | Nat.succ n, m => iterOp f n (f m)

/-- Model of `cv2.morphologyEx(MORPH_CLOSE, kernel, iterations=n)`:
`n` dilations followed by `n` erosions. -/
def morphClose (m : Mat1) (iters : Nat) : Mat1 :=
  iterOp erode iters (iterOp dilate iters m)

/-- Model of `cv2.morphologyEx(MORPH_OPEN, kernel, iterations=n)`:
`n` erosions followed by `n` dilations. -/
def morphOpen (m : Mat1) (iters : Nat) : Mat1 :=
  iterOp dilate iters (iterOp erode iters m)

/-- `ImageProcessor._dynamic_color_mask` (image_processor.py lines
281-295): absolute difference, grayscale, binary threshold at 30,
morphological close (2 iterations) then open (1 iteration). -/
def dynamic_color_mask (orig marked : Mat3) : Mat1 :=
  let diff := absdiffM orig marked
  let diff_gray := bgr2gray diff
  let diff_mask := thresholdBin diff_gray 30
  let diff_mask := morphClose diff_mask 2
  morphOpen diff_mask 1

/-- A foreground pixel coordinate `(row, col)`. -/
abbrev Px : Type := Nat × Nat

/-- The foreground (nonzero) pixels of a mask. -/
def fgPixels (m : Mat1) : List Px :=
  m.enum.flatMap (fun rc => rc.2.enum.filterMap (fun cv =>
    if cv.2 ≠ 0 then some ((rc.1, cv.1) : Px) else none))

/-- 8-neighbourhood adjacency of two distinct pixels. -/
def adj8 (p q : Px) : Bool :=
  decide (p ≠ q) && decide (p.1 ≤ q.1 + 1) && decide (q.1 ≤ p.1 + 1)
    && decide (p.2 ≤ q.2 + 1) && decide (q.2 ≤ p.2 + 1)

/-- Grow a connected component from `acc` by repeatedly absorbing the
remaining pixels adjacent to it; returns the component and the leftover. -/
def growComponent : Nat → List Px → List Px → List Px × List Px
  | 0, acc, rem => (acc, rem)
  | Nat.succ fuel, acc, rem =>
    let step := rem.partition (fun p => acc.any (fun q => adj8 p q))
    if step.1.isEmpty then (acc, rem)
    else growComponent fuel (acc ++ step.1) step.2

/-- Split a pixel list into its 8-connected components. -/
def componentsAux : Nat → List Px → List (List Px)
  | 0, _ => []
  | Nat.succ _, [] => []
  | Nat.succ fuel, p :: rest =>
    let g := growComponent rest.length [p] rest
    g.1 :: componentsAux fuel g.2

/-- Model of `cv2.findContours(RETR_EXTERNAL)`: one contour per
8-connected foreground component (represented by the component itself). -/
def findContoursM (m : Mat1) : List (List Px) :=
  let fg := fgPixels m
  componentsAux fg.length fg

/-- Model of `cv2.contourArea`: the enclosed region's size, here the
component's pixel count. -/
def contourArea (c : List Px) : Nat := c.length

/-- The `max([c for c in contours if cv2.contourArea(c) > 50],
key=cv2.contourArea, default=None)` selection (image_processor.py lines
347-351, and the `if not contours` guard at 343): `none` when no contour
has area above 50, else the first contour of maximal area. -/
def mainContour (cs : List (List Px)) : Option (List Px) :=
  (cs.filter (fun c => 50 < contourArea c)).foldl (fun best c =>
    match best with
    | none => some c
    | some b => if contourArea b < contourArea c then some c else some b) none

/-- Model of filled `cv2.drawContours(mask, [c], -1, 255, -1)` on a zero
matrix: the component's pixels painted 255. -/
def fillContour (d : Nat × Nat) (c : List Px) : Mat1 :=
  mkMat1 d.1 d.2 (fun r cc => if c.contains ((r, cc) : Px) then 255 else 0)

/-- Model of `cv2.bitwise_not` on an 8-bit mask. -/
def bitwiseNot (m : Mat1) : Mat1 :=
  m.map (List.map (fun v => 255 - v))

/-- Model of `cv2.resize` to `w × h`: a dimension-faithful resampling
(nearest neighbour; the interpolation detail never matters here). -/
def resizeTo (m : Mat3) (w h : Nat) : Mat3 :=
  let d := dims3 m
  (List.range h).map (fun (r : Nat) => (List.range w).map (fun (c : Nat) =>
    (((m.get? (r * d.1 / h)).getD []).get? (c * d.2 / w)).getD ((0, 0, 0) : Pix)))

/-- The returned mask, wrapped by the wire encoding (grayscale re-expressed
as 3-channel, PNG, base64 data URI).  That encoding is an injective
serialization of the bitmap, modelled as the identity on it. -/
structure MaskResult where
  mask : Mat1
deriving DecidableEq, Repr

/-- The data-URI encoding step (image_processor.py lines 319-322). -/
def encodeMask (m : Mat1) : MaskResult := { mask := m }

/-- `ImageProcessor._black_mask` (image_processor.py lines 381-390): the
all-zero mask of the given `(height, width)`, PNG-encoded. -/
def black_mask (d : Nat × Nat) : MaskResult :=
  encodeMask (mkMat1 d.1 d.2 (fun _ _ => 0))

/-- `ImageProcessor.create_mask_from_marked_image` (image_processor.py
lines 297-326).  Exceptions are modelled by `Except.error`.  When the
original bytes fail to decode, `orig_cv` is `None`, the shape comparison
raises `AttributeError`, and the handler at line 326 — whose
`if` takes the `orig_cv.shape` branch because the name `orig_cv` IS in
`locals()` — evaluates `None.shape` and raises again, so the error
escapes.  When only the marked bytes fail to decode, the handler returns
the black mask of the original image's dimensions. -/
def create_mask_from_marked_image (orig marked : ImageBytes) :
    Except String MaskResult :=
  match imdecode orig with
  | none => Except.error "AttributeError: NoneType object has no attribute shape"
  | some ocv =>
    match imdecode marked with
    | none => Except.ok (black_mask (dims3 ocv))
    | some mcv0 =>
      let d := dims3 ocv
      let mcv := if d ≠ dims3 mcv0 then resizeTo mcv0 d.2 d.1 else mcv0
      Except.ok (encodeMask (dynamic_color_mask ocv mcv))

/-- The contour stage of the circle-selection mask (image_processor.py
lines 338-357): difference mask of the (resized) pair, contour extraction,
selection of the largest contour of area above 50, filled to a solid
region of the original dimensions; `none` when no contour qualifies. -/
def circleContourMask (ocv mcv0 : Mat3) : Option Mat1 :=
  let d := dims3 ocv
  let mcv := if d ≠ dims3 mcv0 then resizeTo mcv0 d.2 d.1 else mcv0
  (mainContour (findContoursM (dynamic_color_mask ocv mcv))).map (fillContour d)

/-- `ImageProcessor.create_mask_from_circle_selection` (image_processor.py
lines 328-379).  The marked bytes are decoded first, then the original;
an undecodable original makes the except handler itself raise (same
`locals()` slip as in `create_mask_from_marked_image`); an undecodable
marked image falls back to the black mask of the original's dimensions.
When no qualifying contour exists the black mask is returned WITHOUT the
inversion step (lines 343-353 return before line 360); otherwise the
filled contour mask is bitwise-inverted exactly when `invert` is set. -/
def create_mask_from_circle_selection (orig marked : ImageBytes)
    (invert : Bool) : Except String MaskResult :=
  match imdecode orig with
  | none => Except.error "AttributeError: NoneType object has no attribute shape"
  | some ocv =>
    match imdecode marked with
    | none => Except.ok (black_mask (dims3 ocv))
    | some mcv0 =>
      match circleContourMask ocv mcv0 with
      | none => Except.ok (black_mask (dims3 ocv))
      | some b => Except.ok (encodeMask (if invert then bitwiseNot b else b))

/-! ## Signed upload client (image_uploader.py, `_get_authorization_header`)

The signing routine is embedded over UTF-8 byte lists.  `hashlib.sha256`
and `hmac.new(..., hashlib.sha256)` are modelled by a concrete FIPS-180-4
SHA-256 over `Nat` bytes (words reduced mod 2^32 explicitly);
`requests.utils.quote(str(v), safe=...)` by RFC-3986 percent-encoding of the
UTF-8 bytes; `sorted(request_parameters.items())` by a stable merge sort
under the lexicographic order on key-value pairs (Python compares strings
by code point, as Lean's `String` order does). -/

/-- A byte string: each entry in 0..255. -/
abbrev Bytes : Type := List Nat

/-- Reduction to a 32-bit word. -/
def w32 (n : Nat) : Nat := n % 4294967296

/-- 32-bit right rotation. -/
def rotr32 (x n : Nat) : Nat := w32 ((x >>> n) ||| (x <<< (32 - n)))

/-- SHA-256 `Ch`: `(x AND y) XOR (NOT x AND z)` on 32-bit words. -/
def chF (x y z : Nat) : Nat := (x &&& y) ^^^ ((x ^^^ 4294967295) &&& z)

/-- SHA-256 `Maj`. -/
def majF (x y z : Nat) : Nat := (x &&& y) ^^^ (x &&& z) ^^^ (y &&& z)

/-- SHA-256 Σ0. -/
def bigSigma0 (x : Nat) : Nat := rotr32 x 2 ^^^ rotr32 x 13 ^^^ rotr32 x 22

/-- SHA-256 Σ1. -/
def bigSigma1 (x : Nat) : Nat := rotr32 x 6 ^^^ rotr32 x 11 ^^^ rotr32 x 25

/-- SHA-256 σ0. -/
def smallSigma0 (x : Nat) : Nat := rotr32 x 7 ^^^ rotr32 x 18 ^^^ (x >>> 3)

/-- SHA-256 σ1. -/
def smallSigma1 (x : Nat) : Nat := rotr32 x 17 ^^^ rotr32 x 19 ^^^ (x >>> 10)

/-- The SHA-256 round constants. -/
def shaK : List Nat :=
  [1116352408, 1899447441, 3049323471, 3921009573, 961987163,
   1508970993, 2453635748, 2870763221, 3624381080, 310598401,
   607225278, 1426881987, 1925078388, 2162078206, 2614888103,
   3248222580, 3835390401, 4022224774, 264347078, 604807628,
   770255983, 1249150122, 1555081692, 1996064986, 2554220882,
   2821834349, 2952996808, 3210313671, 3336571891, 3584528711,
   113926993, 338241895, 666307205, 773529912, 1294757372,
   1396182291, 1695183700, 1986661051, 2177026350, 2456956037,
   2730485921, 2820302411, 3259730800, 3345764771, 3516065817,
   3600352804, 4094571909, 275423344, 430227734, 506948616,
   659060556, 883997877, 958139571, 1322822218, 1537002063,
   1747873779, 1955562222, 2024104815, 2227730452, 2361852424,
   2428436474, 2756734187, 3204031479, 3329325298]

/-- The SHA-256 initial hash value. -/
def shaH0 : List Nat :=
  [1779033703, 3144134277, 1013904242, 2773480762,
   1359893119, 2600822924, 528734635, 1541459225]

/-- The 8-byte big-endian encoding of a length in bits. -/
def bigEndian8 (n : Nat) : Bytes :=
  [(n >>> 56) % 256, (n >>> 48) % 256, (n >>> 40) % 256, (n >>> 32) % 256,
   (n >>> 24) % 256, (n >>> 16) % 256, (n >>> 8) % 256, n % 256]

/-- SHA-256 padding: `0x80`, zeros to 56 mod 64, the bit length. -/
def shaPad (msg : Bytes) : Bytes :=
  msg ++ [0x80] ++ List.replicate ((119 - msg.length % 64) % 64) 0
    ++ bigEndian8 (8 * msg.length)

/-- Big-endian 32-bit words of a byte string. -/
def toWords : Bytes → List Nat
  | a :: b :: c :: d :: rest => (((a * 256 + b) * 256 + c) * 256 + d) :: toWords rest
  | _ => []

/-- Split into chunks of `k` bytes (`fuel` bounds the recursion). -/
def chunksOf (k : Nat) : Nat → Bytes → List Bytes
  | 0, _ => []
  | Nat.succ fuel, bs =>
    if bs.isEmpty then [] else bs.take k :: chunksOf k fuel (bs.drop k)

/-- Extend the 16-word message schedule by `fuel` further words. -/
def scheduleAux : Nat → List Nat → List Nat
  | 0, w => w
  | Nat.succ fuel, w =>
    let t := w.length
    scheduleAux fuel (w ++ [w32 (smallSigma1 (w.getD (t - 2) 0) + w.getD (t - 7) 0
      + smallSigma0 (w.getD (t - 15) 0) + w.getD (t - 16) 0)])

/-- The full 64-word message schedule of one block. -/
def schedule (ws : List Nat) : List Nat := scheduleAux 48 ws

/-- One SHA-256 compression round on the 8-word working state. -/
def shaRound (s : List Nat) (k w : Nat) : List Nat :=
  let a := s.getD 0 0
  let b := s.getD 1 0
  let c := s.getD 2 0
  let d := s.getD 3 0
  let e := s.getD 4 0
  let f := s.getD 5 0
  let g := s.getD 6 0
  let h := s.getD 7 0
  let t1 := w32 (h + bigSigma1 e + chF e f g + k + w)
  let t2 := w32 (bigSigma0 a + majF a b c)
  [w32 (t1 + t2), a, b, c, w32 (d + t1), e, f, g]

/-- Compress one 64-byte block into the hash state. -/
def compressBlock (h : List Nat) (block : Bytes) : List Nat :=
  let ws := schedule (toWords block)
  let s := (List.zip shaK ws).foldl (fun s kw => shaRound s kw.1 kw.2) h
  List.zipWith (fun x y => w32 (x + y)) h s

/-- SHA-256 of a byte string (model of `hashlib.sha256(...).digest()`). -/
def sha256 (msg : Bytes) : Bytes :=
  let padded := shaPad msg
  let hh := (chunksOf 64 padded.length padded).foldl compressBlock shaH0
  hh.flatMap (fun x => [(x >>> 24) % 256, (x >>> 16) % 256, (x >>> 8) % 256, x % 256])

/-- HMAC-SHA256 (model of `hmac.new(key, msg, hashlib.sha256).digest()`). -/
def hmacSha256 (key msg : Bytes) : Bytes :=
  let k1 := if 64 < key.length then sha256 key else key
  let k2 := k1 ++ List.replicate (64 - k1.length) 0
  let ipad := k2.map (fun b => b ^^^ 0x36)
  let opad := k2.map (fun b => b ^^^ 0x5c)
  sha256 (opad ++ sha256 (ipad ++ msg))

/-- The UTF-8 bytes of a string. -/
def strBytes (s : String) : Bytes := s.toUTF8.toList.map (fun b => b.toNat)

/-- Lowercase hex digit. -/
def hexDigit (n : Nat) : Char :=
  "0123456789abcdef".toList.getD n (Char.ofNat 48)

/-- Uppercase hex digit (as `urllib.parse.quote` emits). -/
def hexDigitUpper (n : Nat) : Char :=
  "0123456789ABCDEF".toList.getD n (Char.ofNat 48)

/-- Lowercase hex string of a byte string — `.hexdigest()`. -/
def toHex (bs : Bytes) : String :=
  String.mk (bs.flatMap (fun b => [hexDigit (b / 16), hexDigit (b % 16)]))

/-- RFC 3986 unreserved bytes: letters, digits, `-` `.` `_` `~`. -/
def isUnreserved (b : Nat) : Bool :=
  (65 ≤ b && b ≤ 90) || (97 ≤ b && b ≤ 122) || (48 ≤ b && b ≤ 57)
    || b == 45 || b == 46 || b == 95 || b == 126

/-- Model of `requests.utils.quote(s, safe=...)` with an empty safe set:
every byte outside the unreserved set becomes `%XX` (uppercase hex) over
the UTF-8 encoding. -/
def encode_param (s : String) : String :=
  String.mk ((strBytes s).flatMap (fun b =>
    if isUnreserved b then [Char.ofNat b]
    else [Char.ofNat 37, hexDigitUpper (b / 16), hexDigitUpper (b % 16)]))

/-- The order `sorted(request_parameters.items())` sorts by: lexicographic
on the key, value as tie-break (Python tuple comparison). -/
def pairLe (x y : String × String) : Bool :=
  if x.1 = y.1 then decide (x.2 ≤ y.2) else decide (x.1 < y.1)

/-- `sorted(request_parameters.items())` — Python's stable sort. -/
def sortParams (ps : List (String × String)) : List (String × String) :=
  List.mergeSort ps pairLe

/-- The canonical query string (image_uploader.py lines 67-76): sorted
parameters joined as `k=quote(v)` with `&`. -/
def canonical_querystring (ps : List (String × String)) : String :=
  String.intercalate "&"
    ((sortParams ps).map (fun kv => kv.1 ++ "=" ++ encode_param kv.2))

/-- The canonical headers block (image_uploader.py lines 79-83). -/
def canonical_headers (amz_date security_token : String) : String :=
  "host:imagex.bytedanceapi.com\n" ++ "x-amz-date:" ++ amz_date ++ "\n"
    ++ "x-amz-security-token:" ++ security_token ++ "\n"

/-- The signed header names (image_uploader.py line 87). -/
def signed_headers : String := "host;x-amz-date;x-amz-security-token"

/-- The derived signing key (image_uploader.py lines 115-118): four
chained HMAC-SHA256 applications seeded by `"AWS4" + secret_key`, folding
in the datestamp, region, service, and the fixed `aws4_request` suffix. -/
def signingKey (secret_key datestamp region service : String) : Bytes :=
  let k_date := hmacSha256 (strBytes ("AWS4" ++ secret_key)) (strBytes datestamp)
  let k_region := hmacSha256 k_date (strBytes region)
  let k_service := hmacSha256 k_region (strBytes service)
  hmacSha256 k_service (strBytes "aws4_request")

/-- `ImageUploader._get_authorization_header` (image_uploader.py lines
58-133): canonical query string, canonical headers, payload hash,
canonical request, string-to-sign over the `date/region/service/
aws4_request` credential scope, signature with the derived key, and the
assembled authorization header.  Returns the pair
`(authorization_header, canonical_querystring)` as the Python does. -/
def get_authorization_header (access_key secret_key region service : String)
    (request_parameters : List (String × String))
    (amz_date datestamp security_token method payload : String) :
    String × String :=
  let cq := canonical_querystring request_parameters
  let ch := canonical_headers amz_date security_token
  let payload_hash := toHex (sha256 (strBytes payload))
  let canonical_request := String.intercalate "\n"
    [method, "/", cq, ch, signed_headers, payload_hash]
  let algorithm := "AWS4-HMAC-SHA256"
  let credential_scope :=
    datestamp ++ "/" ++ region ++ "/" ++ service ++ "/aws4_request"
  let string_to_sign := String.intercalate "\n"
    [algorithm, amz_date, credential_scope,
     toHex (sha256 (strBytes canonical_request))]
  let k_signing := signingKey secret_key datestamp region service
  let signature := toHex (hmacSha256 k_signing (strBytes string_to_sign))
  (algorithm ++ " " ++ "Credential=" ++ access_key ++ "/" ++ credential_scope
    ++ ", " ++ "SignedHeaders=" ++ signed_headers
    ++ ", " ++ "Signature=" ++ signature, cq)

/-! ## Theorems -/

/-- Looking up a freshly appended key finds its row when the key was not
present before. -/
theorem lookup_append_right (db : Store) (k : String) (r : ImageRow)
    (h : List.lookup k db = none) :
    List.lookup k (db ++ [(k, r)]) = some r := by
  induction db with
  | nil => simp [List.lookup]
  | cons hd tl ih =>
    obtain ⟨k', v⟩ := hd
    by_cases hk : k = k'
    · subst hk; simp [List.lookup] at h
    · simp only [List.cons_append, List.lookup, beq_false_of_ne hk] at h ⊢
      exact ih h

/-- Appending a row for `k` does not change lookups of other keys. -/
theorem lookup_append_other (db : Store) (k j : String) (r : ImageRow)
    (h : j ≠ k) : List.lookup j (db ++ [(k, r)]) = List.lookup j db := by
  induction db with
  | nil => simp [List.lookup, beq_false_of_ne h]
  | cons hd tl ih =>
    obtain ⟨k', v⟩ := hd
    by_cases hk : j = k'
    · subst hk; simp [List.lookup]
    · simp only [List.cons_append, List.lookup, beq_false_of_ne hk]
      exact ih

/-- A sample parent row used by the concrete witnesses below. -/
def row_p : ImageRow :=
  { id := "p", urls := ["u"], operation_type := some "generate",
    operation_params := [], parent_id := none, edit_chain := [],
    operation_history := [], created_at := 5 }

/-- A sample child `image_info` whose parent is `"p"`. -/
def info_c : ImageInfo :=
  { urls := ["v"], type := some "edit", operation_params := [("prompt", "x")],
    parent_id := some "p", create_time := some 9 }

/-- A sample `image_info` with no parent. -/
def info_root : ImageInfo :=
  { urls := ["w"], type := some "generate", operation_params := [],
    parent_id := none, create_time := some 4 }

/-- A sample `image_info` whose parent id `"gone"` is absent. -/
def info_orphan : ImageInfo :=
  { urls := ["w"], type := some "edit", operation_params := [],
    parent_id := some "gone", create_time := some 3 }

/-- C1: a record stored under a fresh id while its (truthy) parent id is
present in the store gets `edit_chain = parent.edit_chain ++ [parent_id]`
and `operation_history = parent.operation_history ++ [its own entry]`;
a record stored with no parent id gets an empty edit chain and a history
holding exactly its own entry. -/
theorem stored_record_lineage (db : Store) (imgId : String) (info : ImageInfo)
    (now : Nat) (hfree : List.lookup imgId db = none) :
    (∀ pid prow, info.parent_id = some pid → pid ≠ "" →
        List.lookup pid db = some prow →
        ∃ row, get_image (store_image db imgId info now).1 imgId = some row
          ∧ row.edit_chain = prow.edit_chain ++ [pid]
          ∧ row.operation_history
              = prow.operation_history ++ [ownEntry imgId info now]) ∧
    (info.parent_id = none →
        ∃ row, get_image (store_image db imgId info now).1 imgId = some row
          ∧ row.edit_chain = []
          ∧ row.operation_history = [ownEntry imgId info now]) := by
  have hstep : (store_image db imgId info now).1
      = db ++ [(imgId, storedRow db imgId info now)] := by
    simp [store_image, hfree]
  constructor
  · intro pid prow hp hne hpl
    refine ⟨storedRow db imgId info now, ?_, ?_, ?_⟩
    · rw [get_image, hstep, lookup_append_right _ _ _ hfree]
    · simp [storedRow, hp, strTruthy, hne, hpl]
    · simp [storedRow, hp, strTruthy, hne, hpl]
  · intro hp
    refine ⟨storedRow db imgId info now, ?_, ?_, ?_⟩
    · rw [get_image, hstep, lookup_append_right _ _ _ hfree]
    · simp [storedRow, hp, strTruthy]
    · simp [storedRow, hp, strTruthy]

/-- Witness for C1 at a concrete store: the child of `"p"` extends the
parent's lineage, and the parentless record starts a fresh lineage. -/
theorem stored_record_lineage_witness :
    (∃ row, get_image (store_image [("p", row_p)] "c" info_c 7).1 "c" = some row
      ∧ row.edit_chain = row_p.edit_chain ++ ["p"]
      ∧ row.operation_history = row_p.operation_history ++ [ownEntry "c" info_c 7]) ∧
    (∃ row, get_image (store_image [("p", row_p)] "r" info_root 7).1 "r" = some row
      ∧ row.edit_chain = []
      ∧ row.operation_history = [ownEntry "r" info_root 7]) :=
  ⟨(stored_record_lineage [("p", row_p)] "c" info_c 7 (by decide)).1
      "p" row_p rfl (by decide) (by decide),
   (stored_record_lineage [("p", row_p)] "r" info_root 7 (by decide)).2 rfl⟩

/-- C2: storing an already-present id fails with the duplicate-id signal
and leaves the first record (and the whole store) untouched; a store of a
fresh id succeeds atomically — `get` sees the one complete row built by
`storedRow` with every field populated, and every other id reads exactly
as before. -/
theorem store_duplicate_and_atomic (db : Store) (imgId : String)
    (info : ImageInfo) (now : Nat) :
    (∀ row0, List.lookup imgId db = some row0 →
        store_image db imgId info now = (db, some StoreError.duplicateId)
          ∧ get_image (store_image db imgId info now).1 imgId = some row0) ∧
    (List.lookup imgId db = none →
        (store_image db imgId info now).2 = none
          ∧ get_image (store_image db imgId info now).1 imgId
              = some (storedRow db imgId info now)
          ∧ (storedRow db imgId info now).id = imgId
          ∧ (storedRow db imgId info now).urls = info.urls
          ∧ (storedRow db imgId info now).operation_type = info.type
          ∧ (storedRow db imgId info now).operation_params = info.operation_params
          ∧ (storedRow db imgId info now).parent_id = info.parent_id
          ∧ (storedRow db imgId info now).created_at = info.create_time.getD now
          ∧ ∀ j, j ≠ imgId →
              get_image (store_image db imgId info now).1 j = get_image db j) := by
  constructor
  · intro row0 h0
    have hdup : store_image db imgId info now = (db, some StoreError.duplicateId) := by
      simp [store_image, h0]
    exact ⟨hdup, by rw [hdup]; exact h0⟩
  · intro hfree
    have hstep : store_image db imgId info now
        = (db ++ [(imgId, storedRow db imgId info now)], none) := by
      simp [store_image, hfree]
    refine ⟨by rw [hstep], ?_, rfl, rfl, rfl, rfl, rfl, rfl, ?_⟩
    · rw [get_image, hstep, lookup_append_right _ _ _ hfree]
    · intro j hj
      rw [get_image, get_image, hstep]
      exact lookup_append_other _ _ _ _ hj

/-- Witness for C2: re-storing id `"p"` fails with the duplicate signal
and the first row survives; storing the fresh id `"c"` succeeds whole. -/
theorem store_duplicate_and_atomic_witness :
    (store_image [("p", row_p)] "p" info_c 7
        = ([("p", row_p)], some StoreError.duplicateId)
      ∧ get_image (store_image [("p", row_p)] "p" info_c 7).1 "p" = some row_p) ∧
    ((store_image [("p", row_p)] "c" info_c 7).2 = none
      ∧ get_image (store_image [("p", row_p)] "c" info_c 7).1 "c"
          = some (storedRow [("p", row_p)] "c" info_c 7)) :=
  ⟨(store_duplicate_and_atomic [("p", row_p)] "p" info_c 7).1 row_p (by decide),
   ⟨((store_duplicate_and_atomic [("p", row_p)] "c" info_c 7).2 (by decide)).1,
    ((store_duplicate_and_atomic [("p", row_p)] "c" info_c 7).2 (by decide)).2.1⟩⟩

/-- C3 counterexample: storing `"o"` whose parent id `"gone"` is absent
from the (empty) store yields `edit_chain = ["gone"]` — the dangling
parent id is still appended (image_storage.py lines 55-56 run whenever
`parent_id` is truthy, found or not) — refuting the claim that the edit
chain degrades to the empty sequence. -/
theorem orphan_store_chain_counterexample :
    (get_image (store_image [] "o" info_orphan 3).1 "o").map
        (fun r => r.edit_chain) = some ["gone"]
      ∧ some ["gone"] ≠ some ([] : List String) := by
  constructor
  · rfl
  · decide

/-- C3 amended: storing a record whose truthy parent id is absent from the
store does not fail — but the lineage degrades to `edit_chain =
[parent_id]` (not the empty sequence) while `operation_history` holds
exactly the record's own entry. -/
theorem orphan_store_lineage (db : Store) (imgId pid : String)
    (info : ImageInfo) (now : Nat) (hp : info.parent_id = some pid)
    (hne : pid ≠ "") (hmiss : List.lookup pid db = none)
    (hfree : List.lookup imgId db = none) :
    (store_image db imgId info now).2 = none ∧
    ∃ row, get_image (store_image db imgId info now).1 imgId = some row
      ∧ row.edit_chain = [pid]
      ∧ row.operation_history = [ownEntry imgId info now] := by
  have hstep : store_image db imgId info now
      = (db ++ [(imgId, storedRow db imgId info now)], none) := by
    simp [store_image, hfree]
  refine ⟨by rw [hstep], storedRow db imgId info now, ?_, ?_, ?_⟩
  · rw [get_image, hstep, lookup_append_right _ _ _ hfree]
  · simp [storedRow, hp, strTruthy, hne, hmiss]
  · simp [storedRow, hp, strTruthy, hne, hmiss]

/-- Witness for the amended C3 at the empty store. -/
theorem orphan_store_lineage_witness :
    (store_image [] "o" info_orphan 3).2 = none ∧
    ∃ row, get_image (store_image [] "o" info_orphan 3).1 "o" = some row
      ∧ row.edit_chain = ["gone"]
      ∧ row.operation_history = [ownEntry "o" info_orphan 3] :=
  orphan_store_lineage [] "o" "gone" info_orphan 3 rfl (by decide) rfl rfl

/-- C8 counterexample: on a store holding `"p"` (with one url), the calls
`validate_image_index("p", 0)` and `validate_image_index("p", 5)` both
fail — with the SAME out-of-range message (both indices fall in the single
`index < 1 or index > 4` branch, image_storage.py line 140), refuting the
claim that those calls fail with distinct messages. -/
theorem validate_zero_five_same_message :
    (validate_image_index [("p", row_p)] "p" (PyIndex.int 0)).1 = false
    ∧ (validate_image_index [("p", row_p)] "p" (PyIndex.int 5)).1 = false
    ∧ (validate_image_index [("p", row_p)] "p" (PyIndex.int 0)).2
        = (validate_image_index [("p", row_p)] "p" (PyIndex.int 5)).2 := by
  refine ⟨rfl, rfl, rfl⟩

/-- C8 amended: `validate_image_index` is a pure total function — it
returns a `(flag, message)` pair and never raises — succeeding exactly on
a stored id with an integer index `1 ≤ k ≤ len(urls) ≤ 4`; the four
failure MODES (id not found, non-integer index, index outside 1..4 —
which covers both 0 and 5 with one shared message — and urls shorter than
the index) each return their own message, and those four messages are
pairwise distinct. -/
theorem validate_index_spec (db : Store) (imgId : String) :
    (∀ row k, get_image db imgId = some row → 1 ≤ k →
        k ≤ (row.urls.length : Int) → row.urls.length ≤ 4 →
        validate_image_index db imgId (PyIndex.int k) = (true, none)) ∧
    (get_image db imgId = none → ∀ idx,
        validate_image_index db imgId idx = (false, some msg_not_found)) ∧
    (∀ row, get_image db imgId = some row →
        validate_image_index db imgId PyIndex.notInt
          = (false, some msg_not_int)) ∧
    (∀ row k, get_image db imgId = some row → (k < 1 ∨ 4 < k) →
        validate_image_index db imgId (PyIndex.int k)
          = (false, some msg_out_of_range)) ∧
    (∀ row k, get_image db imgId = some row → 1 ≤ k → k ≤ 4 →
        (row.urls.length : Int) < k →
        validate_image_index db imgId (PyIndex.int k)
          = (false, some msg_too_few)) ∧
    (msg_not_found ≠ msg_not_int ∧ msg_not_found ≠ msg_out_of_range
      ∧ msg_not_found ≠ msg_too_few ∧ msg_not_int ≠ msg_out_of_range
      ∧ msg_not_int ≠ msg_too_few ∧ msg_out_of_range ≠ msg_too_few) := by
  refine ⟨?_, ?_, ?_, ?_, ?_, ?_⟩
  · intro row k hrow h1 hlen h4
    have hnotrange : ¬(k < 1 ∨ k > 4) := by
      have : (row.urls.length : Int) ≤ 4 := by exact_mod_cast h4
      omega
    have hnotshort : ¬(row.urls = [] ∨ (row.urls.length : Int) < k) := by
      rintro (h0 | hlt)
      · rw [h0] at hlen; simp at hlen; omega
      · omega
    simp only [validate_image_index, hrow]
    rw [if_neg hnotrange, if_neg hnotshort]
  · intro hnone idx
    simp only [validate_image_index, hnone]
  · intro row hrow
    simp only [validate_image_index, hrow]
  · intro row k hrow hout
    have : k < 1 ∨ k > 4 := hout
    simp only [validate_image_index, hrow]
    rw [if_pos this]
  · intro row k hrow h1 h4 hshort
    have hnotrange : ¬(k < 1 ∨ k > 4) := by omega
    simp only [validate_image_index, hrow]
    rw [if_neg hnotrange, if_pos (Or.inr hshort)]
  · refine ⟨?_, ?_, ?_, ?_, ?_, ?_⟩ <;> decide

/-- Witness for the amended C8 on the one-record store: index 1 succeeds,
a missing id / a non-integer / index 0 / index 2 (urls has one entry) hit
their four failure modes. -/
theorem validate_index_spec_witness :
    validate_image_index [("p", row_p)] "p" (PyIndex.int 1) = (true, none)
    ∧ validate_image_index [("p", row_p)] "q" (PyIndex.int 1)
        = (false, some msg_not_found)
    ∧ validate_image_index [("p", row_p)] "p" PyIndex.notInt
        = (false, some msg_not_int)
    ∧ validate_image_index [("p", row_p)] "p" (PyIndex.int 0)
        = (false, some msg_out_of_range)
    ∧ validate_image_index [("p", row_p)] "p" (PyIndex.int 2)
        = (false, some msg_too_few) :=
  ⟨(validate_index_spec [("p", row_p)] "p").1 row_p 1 (by decide) (by decide)
      (by decide) (by decide),
   (validate_index_spec [("p", row_p)] "q").2.1 (by decide) (PyIndex.int 1),
   (validate_index_spec [("p", row_p)] "p").2.2.1 row_p (by decide),
   (validate_index_spec [("p", row_p)] "p").2.2.2.1 row_p 0 (by decide)
      (Or.inl (by decide)),
   (validate_index_spec [("p", row_p)] "p").2.2.2.2.1 row_p 2 (by decide)
      (by decide) (by decide) (by decide)⟩

/-- A sample stream event carrying one image URL in a 2010-type message. -/
def sampleImgEvent (u : String) : EventData :=
  { conversation_id := none, section_id := none, reply_id := none,
    message := some { content_type := some 2010,
                      content := some { data := some [{ image_raw := some u }] } } }

/-- C7: a line failing JSON decode at either nesting layer leaves the
parser state (hence the accumulated urls) unchanged, so any stream
containing it accumulates exactly what the stream without it does; and a
stream that completes with zero accumulated image URLs makes
`send_request` return the failure signal even though no transport error
occurred. -/
theorem malformed_line_skipped (pre suf : List StreamLine) (m : StreamLine)
    (hm : m = StreamLine.badJson ∨ m = StreamLine.badEventJson) :
    processStream (pre ++ m :: suf) = processStream (pre ++ suf)
    ∧ ∀ lines, (processStream lines).image_urls = []
        → send_request lines = none := by
  constructor
  · rcases hm with h | h <;> subst h <;>
      simp [processStream, List.foldl_append, processLine]
  · intro lines h
    simp [send_request, h]

/-- Witness for C7: dropping the malformed middle line of a three-line
stream leaves the accumulated state identical, and an all-malformed
stream (zero urls) returns the failure signal. -/
theorem malformed_line_skipped_witness :
    processStream ([StreamLine.ok (sampleImgEvent "a")]
        ++ StreamLine.badJson :: [StreamLine.ok (sampleImgEvent "b")])
      = processStream ([StreamLine.ok (sampleImgEvent "a")]
        ++ [StreamLine.ok (sampleImgEvent "b")])
    ∧ send_request [StreamLine.badJson] = none :=
  ⟨(malformed_line_skipped [StreamLine.ok (sampleImgEvent "a")]
      [StreamLine.ok (sampleImgEvent "b")] StreamLine.badJson (Or.inl rfl)).1,
   (malformed_line_skipped [] [] StreamLine.badJson (Or.inl rfl)).2
      [StreamLine.badJson] rfl⟩

/-- C10: an event whose decoded `event_data` carries `conversation_id`
overwrites all three running identifiers from that same event —
`section_id` and `reply_id` become that event's `.get` values, which are
`None` when the keys are absent, clearing identifiers captured from
earlier events. -/
theorem conversation_event_overwrites (st : SendState) (e : EventData)
    (h : (e.conversation_id).isSome = true) :
    (processLine st (StreamLine.ok e)).conversation_id = e.conversation_id
    ∧ (processLine st (StreamLine.ok e)).section_id = e.section_id
    ∧ (processLine st (StreamLine.ok e)).reply_id = e.reply_id := by
  refine ⟨?_, ?_, ?_⟩ <;>
    (simp only [processLine, h, if_true]; repeat' split) <;> rfl

/-- A sample later event: `conversation_id` present, `section_id` and
`reply_id` absent. -/
def ev_conv_only : EventData :=
  { conversation_id := some "c2", section_id := none, reply_id := none,
    message := none }

/-- A sample parser state holding identifiers from earlier events. -/
def st_before : SendState :=
  { image_urls := ["x"], conversation_id := some "c1",
    section_id := some "s1", reply_id := some "r1", response_data := [] }

/-- Witness for C10: the later conversation-only event clears the
previously captured section and reply identifiers. -/
theorem conversation_event_overwrites_witness :
    (processLine st_before (StreamLine.ok ev_conv_only)).conversation_id
        = some "c2"
    ∧ (processLine st_before (StreamLine.ok ev_conv_only)).section_id = none
    ∧ (processLine st_before (StreamLine.ok ev_conv_only)).reply_id = none :=
  conversation_event_overwrites st_before ev_conv_only rfl

/-- C6 counterexample: composing three images whose first is 300x300
yields a 410-wide canvas with image 1 pasted at full resolution over the
left 300 columns — and 300 is NOT two-thirds of 410 (3·300 ≠ 2·410),
refuting the two-thirds/one-third split: the layout is 3:1 (the right
column is a third of IMAGE 1's width, not of the canvas). -/
theorem three_one_layout_counterexample :
    combine_images [{ w := 300, h := 300 }, { w := 100, h := 100 },
        { w := 100, h := 100 }]
      = some { w := 410, h := 300,
               pastes := [(0, 0, Paste.pic 0 300 300),
                          (310, 0, Paste.pic 1 100 100),
                          (310, 110, Paste.pic 2 100 100),
                          (310, 220, Paste.blank 100 100)] }
    ∧ ¬(3 * (300 : Int) = 2 * 410) := by
  exact ⟨by decide, by decide⟩

/-- C6 amended: for 3 or 4 images the canvas is `w₀ + ⌊w₀/3⌋ + 10` wide
(image 1 at full resolution on the left — a 3:1 split, about three
quarters of the canvas, not two-thirds) and `h₀` tall; the right column
slots hold images 2-4 scaled to `(⌊w₀/3⌋, ⌊h₀/3⌋)`, any missing slot
filled by the blank tile of that same size; composing 3 images produces
exactly the canvas dimensions of composing 4 with the same first image. -/
theorem three_one_layout (i0 a b c : ImgD) :
    (combine_images [i0, a, b]).map (fun cv => (cv.w, cv.h))
        = some ((i0.w : Int) + ((i0.w / 3 : Nat) : Int) + 10, (i0.h : Int))
    ∧ (combine_images [i0, a, b, c]).map (fun cv => (cv.w, cv.h))
        = some ((i0.w : Int) + ((i0.w / 3 : Nat) : Int) + 10, (i0.h : Int))
    ∧ (combine_images [i0, a, b]).map
          (fun cv => cv.pastes.map (fun pr => pr.2.2))
        = some [Paste.pic 0 i0.w i0.h,
                Paste.pic 1 ((i0.w / 3 : Nat) : Int) ((i0.h / 3 : Nat) : Int),
                Paste.pic 2 ((i0.w / 3 : Nat) : Int) ((i0.h / 3 : Nat) : Int),
                Paste.blank ((i0.w / 3 : Nat) : Int) ((i0.h / 3 : Nat) : Int)]
    ∧ (combine_images [i0, a, b, c]).map
          (fun cv => cv.pastes.map (fun pr => pr.2.2))
        = some [Paste.pic 0 i0.w i0.h,
                Paste.pic 1 ((i0.w / 3 : Nat) : Int) ((i0.h / 3 : Nat) : Int),
                Paste.pic 2 ((i0.w / 3 : Nat) : Int) ((i0.h / 3 : Nat) : Int),
                Paste.pic 3 ((i0.w / 3 : Nat) : Int) ((i0.h / 3 : Nat) : Int)] := by
  refine ⟨rfl, rfl, rfl, rfl⟩

/-- A uniform 2x2 image: paired with itself the difference mask is empty,
so no contour qualifies. -/
def imgFlat : Mat3 := [[(7, 7, 7), (7, 7, 7)], [(7, 7, 7), (7, 7, 7)]]

/-- C4 counterexample: on two identical images the circle-selection mask
is the all-zero mask for BOTH invert values (the no-contour fallback at
image_processor.py lines 343-353 returns before the inversion at line
360), so the invert=true mask is NOT the bitwise NOT of the invert=false
mask; moreover the other algorithm, `create_mask_from_marked_image`,
takes no invert flag at all. -/
theorem circle_invert_counterexample :
    create_mask_from_circle_selection (ImageBytes.valid imgFlat)
        (ImageBytes.valid imgFlat) true
      = Except.ok (black_mask (2, 2))
    ∧ create_mask_from_circle_selection (ImageBytes.valid imgFlat)
        (ImageBytes.valid imgFlat) false
      = Except.ok (black_mask (2, 2))
    ∧ (black_mask (2, 2)).mask ≠ bitwiseNot ((black_mask (2, 2)).mask) := by
  exact ⟨rfl, rfl, by decide⟩

/-- C4 amended: the invert flag exists only on the circle-selection
algorithm, and its inversion law holds exactly when a qualifying contour
exists: there the invert=true result is the bitwise NOT of the
invert=false result; with no qualifying contour both invert values return
the same all-zero mask. -/
theorem circle_invert_complement (ocv mcv0 : Mat3) :
    (∀ b2, circleContourMask ocv mcv0 = some b2 →
        create_mask_from_circle_selection (ImageBytes.valid ocv)
            (ImageBytes.valid mcv0) true
          = Except.ok (encodeMask (bitwiseNot b2))
        ∧ create_mask_from_circle_selection (ImageBytes.valid ocv)
            (ImageBytes.valid mcv0) false
          = Except.ok (encodeMask b2)) ∧
    (circleContourMask ocv mcv0 = none →
        create_mask_from_circle_selection (ImageBytes.valid ocv)
            (ImageBytes.valid mcv0) true
          = create_mask_from_circle_selection (ImageBytes.valid ocv)
            (ImageBytes.valid mcv0) false) := by
  constructor
  · intro b2 hb
    constructor <;> simp [create_mask_from_circle_selection, imdecode, hb]
  · intro hb
    simp [create_mask_from_circle_selection, imdecode, hb]

/-- An 8x8 all-black image. -/
def imgDark : Mat3 := List.replicate 8 (List.replicate 8 ((0, 0, 0) : Pix))

/-- An 8x8 all-white image: against `imgDark` every pixel differs, giving
one 64-pixel component (area above 50), so a contour qualifies. -/
def imgLight : Mat3 := List.replicate 8 (List.replicate 8 ((255, 255, 255) : Pix))

/-- Witness for the amended C4 on a pair with a qualifying contour: the
invert=true mask is the bitwise NOT of the invert=false mask. -/
theorem circle_invert_complement_witness :
    create_mask_from_circle_selection (ImageBytes.valid imgDark)
        (ImageBytes.valid imgLight) true
      = Except.ok (encodeMask (bitwiseNot (mkMat1 8 8 (fun _ _ => 255))))
    ∧ create_mask_from_circle_selection (ImageBytes.valid imgDark)
        (ImageBytes.valid imgLight) false
      = Except.ok (encodeMask (mkMat1 8 8 (fun _ _ => 255))) :=
  (circle_invert_complement imgDark imgLight).1
    (mkMat1 8 8 (fun _ _ => 255)) (by decide)

/-- C5 (code bug): an original image that fails to decode makes the mask
generators RAISE instead of returning the fallback mask: `orig_cv` is
`None`, yet the name IS in `locals()`, so the except handler itself
evaluates `None.shape` and the `AttributeError` escapes to the caller
(image_processor.py line 326 and line 379).  By contrast, an undecodable
MARKED image does degrade to the all-zero mask of the original's
dimensions, as the claim expects. -/
theorem decode_failure_propagates :
    create_mask_from_marked_image ImageBytes.invalid (ImageBytes.valid imgFlat)
      = Except.error "AttributeError: NoneType object has no attribute shape"
    ∧ create_mask_from_circle_selection ImageBytes.invalid
        (ImageBytes.valid imgFlat) false
      = Except.error "AttributeError: NoneType object has no attribute shape"
    ∧ create_mask_from_marked_image (ImageBytes.valid imgFlat)
        ImageBytes.invalid
      = Except.ok (black_mask (2, 2)) := by
  exact ⟨rfl, rfl, rfl⟩

/-- The parameter order used for the canonical query string is
transitive. -/
theorem pairLe_trans (x y z : String × String)
    (hxy : pairLe x y = true) (hyz : pairLe y z = true) :
    pairLe x z = true := by
  by_cases h1 : x.1 = y.1
  · by_cases h2 : y.1 = z.1
    · have h3 : x.1 = z.1 := h1.trans h2
      simp only [pairLe, if_pos h1, if_pos h2, if_pos h3,
        decide_eq_true_eq] at hxy hyz ⊢
      exact le_trans hxy hyz
    · have hlt : y.1 < z.1 := by
        simpa [pairLe, if_neg h2, decide_eq_true_eq] using hyz
      have hlt2 : x.1 < z.1 := by rw [h1]; exact hlt
      simp only [pairLe, if_neg (ne_of_lt hlt2), decide_eq_true_eq]
      exact hlt2
  · have hlt1 : x.1 < y.1 := by
      simpa [pairLe, if_neg h1, decide_eq_true_eq] using hxy
    by_cases h2 : y.1 = z.1
    · have hlt2 : x.1 < z.1 := by rw [← h2]; exact hlt1
      simp only [pairLe, if_neg (ne_of_lt hlt2), decide_eq_true_eq]
      exact hlt2
    · have hlt2 : y.1 < z.1 := by
        simpa [pairLe, if_neg h2, decide_eq_true_eq] using hyz
      have hlt3 : x.1 < z.1 := lt_trans hlt1 hlt2
      simp only [pairLe, if_neg (ne_of_lt hlt3), decide_eq_true_eq]
      exact hlt3

/-- The parameter order is total. -/
theorem pairLe_total (x y : String × String) :
    (pairLe x y || pairLe y x) = true := by
  by_cases h : x.1 = y.1
  · simp only [pairLe, if_pos h, if_pos h.symm, Bool.or_eq_true,
      decide_eq_true_eq]
    exact le_total x.2 y.2
  · simp only [pairLe, if_neg h, if_neg (Ne.symm h), Bool.or_eq_true,
      decide_eq_true_eq]
    exact lt_or_gt_of_ne h

/-- C9: the authorization header is a pure byte-deterministic function of
the credentials, timestamp, datestamp, parameters, method, and payload
(two runs on equal inputs are identical — the embedding contains no clock
or randomness); the canonical query string joins the parameters sorted
lexicographically by key with percent-encoded values; and the signing key
is the four chained HMAC-SHA256 operations over date, region, service,
and the fixed `aws4_request` suffix. -/
theorem authorization_header_deterministic (ak sk region service : String)
    (ps : List (String × String))
    (amzDate datestamp token method payload : String) :
    get_authorization_header ak sk region service ps amzDate datestamp
        token method payload
      = get_authorization_header ak sk region service ps amzDate datestamp
        token method payload
    ∧ List.Pairwise (fun x y => pairLe x y = true) (sortParams ps)
    ∧ canonical_querystring ps
      = String.intercalate "&"
          ((sortParams ps).map (fun kv => kv.1 ++ "=" ++ encode_param kv.2))
    ∧ signingKey sk datestamp region service
      = hmacSha256 (hmacSha256 (hmacSha256 (hmacSha256
          (strBytes ("AWS4" ++ sk)) (strBytes datestamp))
          (strBytes region)) (strBytes service)) (strBytes "aws4_request") := by
  refine ⟨rfl, ?_, rfl, rfl⟩
  exact List.sorted_mergeSort
    (fun a b c hab hbc => pairLe_trans a b c hab hbc)
    (fun a b => pairLe_total a b) ps
